import Mathlib

/-!
Shallow embedding of the wishlist web application server (Go, `server.go`)
used to check its natural-language specification.

Modelling conventions:
* SQL tables are lists of row structures; a transaction is a function that
  either returns the whole new table (`Except.ok`, the commit) or an error
  `(httpStatus, message)` pair (`Except.error`, in which case the deferred
  rollback leaves the table exactly as it was).
* SQLite `BLOB` values (session cookies, invite codes) are modelled as `Nat`
  tokens: only equality of blobs matters to the handlers.
* `DATETIME` values are modelled as integers (`Int` where comparisons to
  "now" matter, `Nat` otherwise).
* The argon2 password hash verifier is an opaque collaborator, passed in as a
  function parameter; `Option Bool` models its `(ok, err)` result pair
  (`none` = verification error).
-/

/-- One row of the `wishlist` table (see `initDb`): id, optimistic-concurrency
sequence number, owning user, three mandatory text columns, two nullable note
columns, and a creation timestamp. -/
structure WishlistRow where
  id : Nat
  seq : Nat
  userId : Nat
  description : String
  source : String
  cost : String
  ownerNotes : Option String
  buyerNotes : Option String
  creationTime : Nat
deriving Repr, DecidableEq

/-- The JSON body of `PATCH /api/wishlist` (`WishlistPatch` in
`handleWishlistPatch`): mandatory `id` and `seq` (0 when the field was absent,
Go's zero value), and five optional field updates (pointer = `Option`). -/
structure WishlistPatch where
  id : Nat
  seq : Nat
  description : Option String
  source : Option String
  cost : Option String
  ownerNotes : Option String
  buyerNotes : Option String
deriving Repr, DecidableEq

/-- `SELECT user_id,sequence_number FROM wishlist WHERE id == ?`: first row of
the table whose `id` column matches. -/
def findRow : List WishlistRow → Nat → Option WishlistRow
  | [], _ => none
  | r :: rs, i => if r.id = i then some r else findRow rs i

/-- The effect of the dynamically built
`UPDATE wishlist SET <provided columns>, sequence_number = ? WHERE id = ?`
on a single matching row: every provided column is overwritten with the
provided value, `sequence_number` becomes the request's `seq + 1`, all other
columns keep their stored value. -/
def applyPatch (req : WishlistPatch) (r : WishlistRow) : WishlistRow :=
  { r with
    description := req.description.getD r.description
    source := req.source.getD r.source
    cost := req.cost.getD r.cost
    ownerNotes := req.ownerNotes.or r.ownerNotes
    buyerNotes := req.buyerNotes.or r.buyerNotes
    seq := req.seq + 1 }

/-- The `UPDATE ... WHERE id = ?` applied to the whole table. -/
def updateWishlist (req : WishlistPatch) (db : List WishlistRow) : List WishlistRow :=
  db.map (fun r => if r.id = req.id then applyPatch req r else r)

/-- The 409 Conflict body built by `handleWishlistPatch` when the client's
`seq` is stale: `fmt.Sprintf("client seq %d does not match server seq %d, try
again", req.Seq, sequenceNumber)`. -/
def conflictMsg (clientSeq serverSeq : Nat) : String :=
  s!"client seq {clientSeq} does not match server seq {serverSeq}, try again"

/-- `handleWishlistPatch` (the authenticated `PATCH /api/wishlist` handler),
from the zero-sentinel validation onward. `userId` is the authenticated
requester. Errors carry `(httpStatus, body)`; `Except.error` means the
transaction was rolled back. -/
def handleWishlistPatch (userId : Nat) (req : WishlistPatch) (db : List WishlistRow) :
    Except (Nat × String) (List WishlistRow) :=
  if req.id = 0 ∨ req.seq = 0 then
    .error (400, "missing id or seq")
  else
    match findRow db req.id with
    | none => .error (500, "error loading row")
    | some row =>
      if row.seq ≠ req.seq then
        .error (409, conflictMsg req.seq row.seq)
      else if row.userId = userId then
        if req.buyerNotes.isSome then
          .error (400, "wishlist owner can not edit buyer notes")
        else if req.description = none ∧ req.source = none ∧ req.cost = none ∧
            req.ownerNotes = none then
          .error (400, "must provide something to patch")
        else
          .ok (updateWishlist req db)
      else
        if req.description.isSome ∨ req.source.isSome ∨ req.cost.isSome ∨
            req.ownerNotes.isSome then
          .error (400, "non-owner can only edit buyer notes")
        else if req.buyerNotes = none then
          .error (400, "must provide something to patch")
        else
          .ok (updateWishlist req db)

/-- The wishlist table visible after the PATCH request finishes: the updated
table if the transaction committed, the untouched table if it rolled back. -/
def patchFinalState (userId : Nat) (req : WishlistPatch) (db : List WishlistRow) :
    List WishlistRow :=
  match handleWishlistPatch userId req db with
  | .ok db2 => db2
  | .error _ => db

example :
    handleWishlistPatch 1
      { id := 5, seq := 1, description := some "new", source := none, cost := none,
        ownerNotes := none, buyerNotes := none }
      [{ id := 5, seq := 2, userId := 1, description := "d", source := "s", cost := "c",
         ownerNotes := none, buyerNotes := none, creationTime := 0 }] =
    .error (409, "client seq 1 does not match server seq 2, try again") := by
  rfl

example :
    handleWishlistPatch 1
      { id := 5, seq := 2, description := some "new", source := none, cost := none,
        ownerNotes := none, buyerNotes := none }
      [{ id := 5, seq := 2, userId := 1, description := "d", source := "s", cost := "c",
         ownerNotes := none, buyerNotes := some "b", creationTime := 0 }] =
    .ok [{ id := 5, seq := 3, userId := 1, description := "new", source := "s", cost := "c",
           ownerNotes := none, buyerNotes := some "b", creationTime := 0 }] := by
  rfl

/-- One row of the `users` table: id, names, unique email, argon2 password
hash. (`registration_date` is never read by any handler and is omitted.) -/
structure UserRow where
  id : Nat
  firstName : String
  lastName : String
  email : String
  passwordHash : String
deriving Repr, DecidableEq

/-- `SELECT password_hash,id,first_name,last_name FROM users WHERE email = ?`:
first row whose `email` column matches. -/
def findUserByEmail : List UserRow → String → Option UserRow
  | [], _ => none
  | u :: us, e => if u.email = e then some u else findUserByEmail us e

/-- `handleSessionPost` (the `POST /api/session` login handler), from the
empty-field validation onward. `verify` is the opaque
`argon2.VerifyEncoded(password, hash)` collaborator (`none` = error).
On success the handler returns the logged-in user's id (the public identity
and session creation both derive from it). -/
def handleSessionPost (verify : String → String → Option Bool)
    (users : List UserRow) (email password : String) : Except (Nat × String) Nat :=
  if email = "" ∨ password = "" then
    .error (400, "Bad Request: Missing fields")
  else
    match findUserByEmail users email with
    | none => .error (401, "invalid username or password")
    | some u =>
      match verify password u.passwordHash with
      | some true => .ok u.id
      | _ => .error (401, "invalid username or password")

/-- One row of the `invite_codes` table: the code blob (modelled as a `Nat`
token), an optional pre-bound user id, and timestamps. `expiryTime` is an
`Int` so that "in the past" is expressible against an arbitrary `now`. -/
structure InviteCodeRow where
  code : Nat
  userId : Option Nat
  creationTime : Nat
  expiryTime : Int
deriving Repr, DecidableEq

/-- The tables touched by the signup transaction. -/
structure SignupDb where
  inviteCodes : List InviteCodeRow
  users : List UserRow
deriving Repr, DecidableEq

/-- The rows removed by `DELETE FROM invite_codes WHERE invite_code = ?`:
the delete matches on the code value alone. -/
def rowsDeleted (code : Nat) (l : List InviteCodeRow) : Nat :=
  (l.filter (fun c => decide (c.code = code))).length

/-- The invite-code table after
`DELETE FROM invite_codes WHERE invite_code = ?`. -/
def deleteInviteCode (code : Nat) (l : List InviteCodeRow) : List InviteCodeRow :=
  l.filter (fun c => decide (c.code ≠ code))

/-- `true` exactly when `INSERT INTO users(...)` would violate the
`email TEXT NOT NULL UNIQUE` constraint. -/
def emailTaken (email : String) (users : List UserRow) : Bool :=
  users.any (fun u => u.email == email)

/-- The transactional core of `handleSignup` (`POST /api/signup`), after body
validation, email parsing, invite-code base64 decoding and password hashing:
within one transaction, delete the invite-code row, fail 400 if the delete
did not remove exactly one row, then insert the new user row (failing on the
unique-email constraint). `newId` is the autoincrement id the insert assigns.
`Except.error` means the transaction was rolled back. -/
def handleSignupTx (first last email passwordHash : String) (code : Nat)
    (newId : Nat) (db : SignupDb) : Except (Nat × String) SignupDb :=
  if rowsDeleted code db.inviteCodes ≠ 1 then
    .error (400, "bad invite code")
  else if emailTaken email db.users then
    .error (500, "error adding user")
  else
    .ok { inviteCodes := deleteInviteCode code db.inviteCodes
          users := db.users ++ [⟨newId, first, last, email, passwordHash⟩] }

/-- The tables visible after the signup request finishes: committed result on
success, the untouched tables after rollback on any error. -/
def signupFinalState (first last email passwordHash : String) (code : Nat)
    (newId : Nat) (db : SignupDb) : SignupDb :=
  match handleSignupTx first last email passwordHash code newId db with
  | .ok db2 => db2
  | .error _ => db

/-- `SELECT COUNT(*) FROM wishlist WHERE id IN (<ids>) AND user_id != ?` in
`handleWishlistDelete`: how many of the requested rows belong to a user other
than the requester. -/
def unauthorizedCount (userId : Nat) (ids : List Nat) (db : List WishlistRow) : Nat :=
  (db.filter (fun r => decide (r.id ∈ ids ∧ r.userId ≠ userId))).length

/-- `handleWishlistDelete` (the authenticated `DELETE /api/wishlist` handler),
from the transaction start onward: within one transaction, count the requested
rows owned by someone else; if nonzero, abort 401; otherwise
`DELETE FROM wishlist WHERE id IN (<ids>) AND user_id == ?` and commit. -/
def handleWishlistDelete (userId : Nat) (ids : List Nat) (db : List WishlistRow) :
    Except (Nat × String) (List WishlistRow) :=
  if unauthorizedCount userId ids db ≠ 0 then
    .error (401, "Attempt to delete wishlist rows not owned by user")
  else
    .ok (db.filter (fun r => decide (¬(r.id ∈ ids ∧ r.userId = userId))))

/-- The wishlist table visible after the bulk delete finishes. -/
def deleteFinalState (userId : Nat) (ids : List Nat) (db : List WishlistRow) :
    List WishlistRow :=
  match handleWishlistDelete userId ids db with
  | .ok db2 => db2
  | .error _ => db

/-- One element of the `entries` array returned by `GET /api/wishlist`
(the handler-local `WishlistEntry` struct: no `user_id` column is selected). -/
structure WishlistGetEntry where
  id : Nat
  seq : Nat
  description : String
  source : String
  cost : String
  ownerNotes : Option String
  buyerNotes : Option String
  creationTime : Nat
deriving Repr, DecidableEq

/-- `rows.Scan` of one row of
`SELECT id,sequence_number,description,source,cost,owner_notes,buyer_notes,creation_time
FROM wishlist WHERE user_id = ?`. -/
def rowToEntry (r : WishlistRow) : WishlistGetEntry :=
  ⟨r.id, r.seq, r.description, r.source, r.cost, r.ownerNotes, r.buyerNotes, r.creationTime⟩

/-- The `entries` array built by `handleWishlistGet` (the authenticated
`GET /api/wishlist` handler). `userId` is the authenticated requester;
`queryParam` is the parsed `userId` URL parameter (`none` when absent, in
which case the requester's own id is used). When the queried id equals the
requester's id, `entry.BuyerNotes = nil` is applied to each scanned row. -/
def handleWishlistGetEntries (userId : Nat) (queryParam : Option Nat)
    (db : List WishlistRow) : List WishlistGetEntry :=
  let queryUserId := queryParam.getD userId
  (db.filter (fun r => decide (r.userId = queryUserId))).map (fun r =>
    if queryUserId = userId then { rowToEntry r with buyerNotes := none }
    else rowToEntry r)

/-! Concrete fixtures used by witnesses. -/

def sampleRow : WishlistRow :=
  { id := 5, seq := 2, userId := 1, description := "d", source := "s", cost := "c",
    ownerNotes := none, buyerNotes := some "b", creationTime := 0 }

def sampleDb : List WishlistRow := [sampleRow]

def samplePatch : WishlistPatch :=
  { id := 5, seq := 2, description := some "new", source := none, cost := none,
    ownerNotes := none, buyerNotes := none }

def stalePatch : WishlistPatch :=
  { id := 5, seq := 1, description := some "new", source := none, cost := none,
    ownerNotes := none, buyerNotes := none }

/-- Claim C1: a wishlist patch whose `seq` differs from the stored sequence
number fails with HTTP 409, the body carries both the client's submitted seq
and the stored seq, and the row (indeed the whole table) is unchanged. -/
theorem wishlistPatch_seq_conflict (userId : Nat) (req : WishlistPatch)
    (db : List WishlistRow) (row : WishlistRow)
    (hid : req.id ≠ 0) (hseq : req.seq ≠ 0)
    (hfind : findRow db req.id = some row)
    (hne : row.seq ≠ req.seq) :
    handleWishlistPatch userId req db = .error (409, conflictMsg req.seq row.seq) ∧
    conflictMsg req.seq row.seq =
      "client seq " ++ toString req.seq ++ " does not match server seq " ++
        toString row.seq ++ ", try again" ∧
    patchFinalState userId req db = db := by
  have h1 : handleWishlistPatch userId req db =
      .error (409, conflictMsg req.seq row.seq) := by
    simp only [handleWishlistPatch, hfind]
    rw [if_neg (by push_neg; exact ⟨hid, hseq⟩), if_pos hne]
  refine ⟨h1, ?_, ?_⟩
  · rfl
  · simp [patchFinalState, h1]

theorem wishlistPatch_seq_conflict_witness :
    handleWishlistPatch 1 stalePatch sampleDb = .error (409, conflictMsg 1 2) ∧
    conflictMsg 1 2 =
      "client seq " ++ toString 1 ++ " does not match server seq " ++
        toString 2 ++ ", try again" ∧
    patchFinalState 1 stalePatch sampleDb = sampleDb :=
  wishlistPatch_seq_conflict 1 stalePatch sampleDb sampleRow
    (by decide) (by decide) rfl (by decide)

/-- Claim C8 (amended): a wishlist patch with nonzero `id` and `seq` whose row
does not exist fails with HTTP 500 and body "error loading row" (the handler
folds `sql.ErrNoRows` into the generic scan-failure path), and no row is
modified. -/
theorem wishlistPatch_row_absent (userId : Nat) (req : WishlistPatch)
    (db : List WishlistRow)
    (hid : req.id ≠ 0) (hseq : req.seq ≠ 0)
    (hfind : findRow db req.id = none) :
    handleWishlistPatch userId req db = .error (500, "error loading row") ∧
    patchFinalState userId req db = db := by
  have h1 : handleWishlistPatch userId req db = .error (500, "error loading row") := by
    simp only [handleWishlistPatch, hfind]
    rw [if_neg (by push_neg; exact ⟨hid, hseq⟩)]
  exact ⟨h1, by simp [patchFinalState, h1]⟩

theorem wishlistPatch_row_absent_witness :
    handleWishlistPatch 1 samplePatch [] = .error (500, "error loading row") ∧
    patchFinalState 1 samplePatch [] = [] :=
  wishlistPatch_row_absent 1 samplePatch [] (by decide) (by decide) rfl

/-- The HTTP status of a patch outcome (200 on success). -/
def patchStatus (r : Except (Nat × String) (List WishlistRow)) : Nat :=
  match r with
  | .ok _ => 200
  | .error (s, _) => s

/-- Claim C8 counterexample: patching a nonexistent row (id 5, empty table)
does not produce an HTTP 404 "not found" response as claimed — the handler
answers 500 with body "error loading row". -/
theorem wishlistPatch_row_absent_cex :
    handleWishlistPatch 1 samplePatch [] = .error (500, "error loading row") ∧
    patchStatus (handleWishlistPatch 1 samplePatch []) = 500 ∧
    patchStatus (handleWishlistPatch 1 samplePatch []) ≠ 404 := by
  refine ⟨rfl, rfl, by decide⟩

/-- After the zero-sentinel, lookup and sequence gates pass, the patch handler
reduces to the role check of `handleWishlistPatch`. -/
lemma handleWishlistPatch_roleCheck (userId : Nat) (req : WishlistPatch)
    (db : List WishlistRow) (row : WishlistRow)
    (hid : req.id ≠ 0) (hseq : req.seq ≠ 0)
    (hfind : findRow db req.id = some row)
    (hmatch : row.seq = req.seq) :
    handleWishlistPatch userId req db =
      if row.userId = userId then
        if req.buyerNotes.isSome then
          .error (400, "wishlist owner can not edit buyer notes")
        else if req.description = none ∧ req.source = none ∧ req.cost = none ∧
            req.ownerNotes = none then
          .error (400, "must provide something to patch")
        else
          .ok (updateWishlist req db)
      else
        if req.description.isSome ∨ req.source.isSome ∨ req.cost.isSome ∨
            req.ownerNotes.isSome then
          .error (400, "non-owner can only edit buyer notes")
        else if req.buyerNotes = none then
          .error (400, "must provide something to patch")
        else
          .ok (updateWishlist req db) := by
  simp only [handleWishlistPatch, hfind]
  rw [if_neg (by push_neg; exact ⟨hid, hseq⟩), if_neg (not_not_intro hmatch)]

/-- Claim C3: once the sequence check passes, an owner patch is rejected 400
when `buyer_notes` is present or no owner field is present; a non-owner patch
is rejected 400 when any owner field is present or `buyer_notes` is absent;
in every remaining case the update proceeds. -/
theorem wishlistPatch_role_validation (userId : Nat) (req : WishlistPatch)
    (db : List WishlistRow) (row : WishlistRow)
    (hid : req.id ≠ 0) (hseq : req.seq ≠ 0)
    (hfind : findRow db req.id = some row)
    (hmatch : row.seq = req.seq) :
    (row.userId = userId → req.buyerNotes.isSome →
      handleWishlistPatch userId req db =
        .error (400, "wishlist owner can not edit buyer notes")) ∧
    (row.userId = userId → req.buyerNotes = none → req.description = none →
      req.source = none → req.cost = none → req.ownerNotes = none →
      handleWishlistPatch userId req db =
        .error (400, "must provide something to patch")) ∧
    (row.userId ≠ userId →
      (req.description.isSome ∨ req.source.isSome ∨ req.cost.isSome ∨
        req.ownerNotes.isSome) →
      handleWishlistPatch userId req db =
        .error (400, "non-owner can only edit buyer notes")) ∧
    (row.userId ≠ userId → req.description = none → req.source = none →
      req.cost = none → req.ownerNotes = none → req.buyerNotes = none →
      handleWishlistPatch userId req db =
        .error (400, "must provide something to patch")) ∧
    ((row.userId = userId ∧ req.buyerNotes = none ∧
        (req.description.isSome ∨ req.source.isSome ∨ req.cost.isSome ∨
          req.ownerNotes.isSome)) ∨
      (row.userId ≠ userId ∧ req.description = none ∧ req.source = none ∧
        req.cost = none ∧ req.ownerNotes = none ∧ req.buyerNotes.isSome) →
      handleWishlistPatch userId req db = .ok (updateWishlist req db)) := by
  have hg := handleWishlistPatch_roleCheck userId req db row hid hseq hfind hmatch
  refine ⟨?_, ?_, ?_, ?_, ?_⟩
  · intro howner hbn
    rw [hg, if_pos howner, if_pos hbn]
  · intro howner hbn hd hs hc ho
    rw [hg, if_pos howner, if_neg (by simp [hbn]), if_pos ⟨hd, hs, hc, ho⟩]
  · intro howner hsome
    rw [hg, if_neg howner, if_pos hsome]
  · intro howner hd hs hc ho hbn
    rw [hg, if_neg howner,
      if_neg (by simp [hd, hs, hc, ho]), if_pos hbn]
  · rintro (⟨howner, hbn, hsome⟩ | ⟨howner, hd, hs, hc, ho, hbn⟩)
    · rw [hg, if_pos howner, if_neg (by simp [hbn]),
        if_neg (by
          rcases hsome with h | h | h | h <;>
            simp [Option.isSome_iff_ne_none] at h <;> simp [h])]
    · rw [hg, if_neg howner, if_neg (by simp [hd, hs, hc, ho]),
        if_neg (by simp [Option.isSome_iff_ne_none] at hbn; simp [hbn])]

theorem wishlistPatch_role_validation_witness :
    handleWishlistPatch 2 samplePatch sampleDb =
      .error (400, "non-owner can only edit buyer notes") :=
  (wishlistPatch_role_validation 2 samplePatch sampleDb sampleRow
      (by decide) (by decide) rfl rfl).2.2.1 (by decide) (Or.inl (by decide))

/-- Any committed patch produces exactly the table computed by the
`UPDATE ... WHERE id = ?` statement. -/
lemma handleWishlistPatch_ok_eq (userId : Nat) (req : WishlistPatch)
    (db db' : List WishlistRow)
    (h : handleWishlistPatch userId req db = .ok db') :
    db' = updateWishlist req db := by
  unfold handleWishlistPatch at h
  split at h
  · exact absurd h (by simp)
  · split at h
    · exact absurd h (by simp)
    · split at h
      · exact absurd h (by simp)
      · split at h
        · split at h
          · exact absurd h (by simp)
          · split at h
            · exact absurd h (by simp)
            · exact (Except.ok.injEq _ _ ▸ h).symm
        · split at h
          · exact absurd h (by simp)
          · split at h
            · exact absurd h (by simp)
            · exact (Except.ok.injEq _ _ ▸ h).symm

/-- Claim C4: a committed patch changes exactly the provided columns (to the
provided values) and sets the sequence number to the submitted `seq + 1` on
the matching row, leaves every other column and every other row untouched,
and any failed patch rolls back leaving the table exactly as it was. -/
theorem wishlistPatch_frame (userId : Nat) (req : WishlistPatch)
    (db : List WishlistRow) :
    (∀ db', handleWishlistPatch userId req db = .ok db' →
      db'.length = db.length ∧
      ∀ (i : Nat) (r r' : WishlistRow), db[i]? = some r → db'[i]? = some r' →
        (r.id ≠ req.id → r' = r) ∧
        (r.id = req.id →
          r'.id = r.id ∧ r'.userId = r.userId ∧ r'.creationTime = r.creationTime ∧
          r'.seq = req.seq + 1 ∧
          r'.description = req.description.getD r.description ∧
          r'.source = req.source.getD r.source ∧
          r'.cost = req.cost.getD r.cost ∧
          r'.ownerNotes = req.ownerNotes.or r.ownerNotes ∧
          r'.buyerNotes = req.buyerNotes.or r.buyerNotes)) ∧
    (∀ e, handleWishlistPatch userId req db = .error e →
      patchFinalState userId req db = db) := by
  constructor
  · intro db' hok
    have hdb' : db' = updateWishlist req db :=
      handleWishlistPatch_ok_eq userId req db db' hok
    subst hdb'
    constructor
    · simp [updateWishlist]
    · intro i r r' hr hr'
      have hmap : (updateWishlist req db)[i]? =
          (db[i]?).map (fun r => if r.id = req.id then applyPatch req r else r) := by
        simp [updateWishlist]
      rw [hmap, hr] at hr'
      simp only [Option.map_some', Option.some.injEq] at hr'
      constructor
      · intro hne
        rw [← hr', if_neg hne]
      · intro heq
        rw [← hr', if_pos heq]
        simp [applyPatch, heq]
  · intro e herr
    simp [patchFinalState, herr]

theorem wishlistPatch_frame_witness :
    (updateWishlist samplePatch sampleDb).length = sampleDb.length ∧
    patchFinalState 1 stalePatch sampleDb = sampleDb :=
  ⟨((wishlistPatch_frame 1 samplePatch sampleDb).1 (updateWishlist samplePatch sampleDb)
      rfl).1,
    (wishlistPatch_frame 1 stalePatch sampleDb).2 (409, conflictMsg 1 2) rfl⟩

/-- Claim C5: when the queried user id equals the requesting user's id (also
when the `userId` parameter is absent and defaults to the requester), every
returned wishlist entry has `buyer_notes = null` regardless of the stored
column value. -/
theorem wishlistGet_own_view_hides_buyer_notes (userId : Nat) (q : Option Nat)
    (db : List WishlistRow) (hq : q.getD userId = userId) :
    ∀ e ∈ handleWishlistGetEntries userId q db, e.buyerNotes = none := by
  intro e he
  simp only [handleWishlistGetEntries] at he
  rw [hq] at he
  simp only [List.mem_map] at he
  obtain ⟨r, hr, hre⟩ := he
  rw [← hre]
  simp

theorem wishlistGet_own_view_witness :
    ({ id := 5, seq := 2, description := "d", source := "s", cost := "c",
       ownerNotes := none, buyerNotes := none, creationTime := 0 } : WishlistGetEntry) ∈
      handleWishlistGetEntries 1 (some 1) sampleDb ∧
    ({ id := 5, seq := 2, description := "d", source := "s", cost := "c",
       ownerNotes := none, buyerNotes := none, creationTime := 0 } :
        WishlistGetEntry).buyerNotes = none :=
  ⟨by decide,
    wishlistGet_own_view_hides_buyer_notes 1 (some 1) sampleDb rfl _ (by decide)⟩

/-- Claim C10: when the queried user id differs from the requester's id, the
returned entries are exactly the stored rows of the queried user, with
`owner_notes` (and `buyer_notes`) carried over exactly as stored — nothing is
nulled. -/
theorem wishlistGet_other_view_preserves_notes (userId q : Nat)
    (db : List WishlistRow) (hne : q ≠ userId) :
    handleWishlistGetEntries userId (some q) db =
      (db.filter (fun r => decide (r.userId = q))).map rowToEntry ∧
    ∀ r : WishlistRow, (rowToEntry r).ownerNotes = r.ownerNotes ∧
      (rowToEntry r).buyerNotes = r.buyerNotes := by
  refine ⟨?_, fun r => ⟨rfl, rfl⟩⟩
  simp [handleWishlistGetEntries, hne]

theorem wishlistGet_other_view_witness :
    handleWishlistGetEntries 2 (some 1) sampleDb =
      (sampleDb.filter (fun r => decide (r.userId = 1))).map rowToEntry :=
  (wishlistGet_other_view_preserves_notes 2 1 sampleDb (by decide)).1

/-- A wishlist row owned by user 2 (used by the bulk-delete witness). -/
def otherRow : WishlistRow :=
  { id := 7, seq := 1, userId := 2, description := "d2", source := "s2", cost := "c2",
    ownerNotes := none, buyerNotes := none, creationTime := 0 }

/-- Claim C6: a bulk delete whose id list contains an id owned by another user
fails with HTTP 401 and deletes nothing — the ownership check and the delete
form one all-or-nothing transaction. -/
theorem wishlistDelete_unauthorized_atomic (userId : Nat) (ids : List Nat)
    (db : List WishlistRow) (r : WishlistRow)
    (hr : r ∈ db) (hid : r.id ∈ ids) (hu : r.userId ≠ userId) :
    handleWishlistDelete userId ids db =
      .error (401, "Attempt to delete wishlist rows not owned by user") ∧
    deleteFinalState userId ids db = db := by
  have hcount : unauthorizedCount userId ids db ≠ 0 := by
    unfold unauthorizedCount
    have hmem : r ∈ db.filter (fun r => decide (r.id ∈ ids ∧ r.userId ≠ userId)) :=
      List.mem_filter.mpr ⟨hr, decide_eq_true ⟨hid, hu⟩⟩
    intro h0
    rw [List.length_eq_zero] at h0
    rw [h0] at hmem
    exact absurd hmem (List.not_mem_nil r)
  have h1 : handleWishlistDelete userId ids db =
      .error (401, "Attempt to delete wishlist rows not owned by user") := by
    unfold handleWishlistDelete
    rw [if_pos hcount]
  exact ⟨h1, by simp [deleteFinalState, h1]⟩

theorem wishlistDelete_unauthorized_witness :
    handleWishlistDelete 1 [7] [otherRow] =
      .error (401, "Attempt to delete wishlist rows not owned by user") ∧
    deleteFinalState 1 [7] [otherRow] = [otherRow] :=
  wishlistDelete_unauthorized_atomic 1 [7] [otherRow] otherRow
    (by decide) (by decide) (by decide)

/-- A registered user (used by the login witness). -/
def sampleUser : UserRow :=
  { id := 1, firstName := "Jane", lastName := "Doe", email := "jane@example.com",
    passwordHash := "hash" }

/-- Claim C7: a login with an unknown email and a login with a known email but
a non-matching password (or a verifier error) produce identical responses:
HTTP 401 with body "invalid username or password". -/
theorem login_indistinguishable (verify : String → String → Option Bool)
    (users : List UserRow) (e1 p1 e2 p2 : String) (u : UserRow)
    (he1 : e1 ≠ "") (hp1 : p1 ≠ "") (he2 : e2 ≠ "") (hp2 : p2 ≠ "")
    (hmiss : findUserByEmail users e1 = none)
    (hhit : findUserByEmail users e2 = some u)
    (hbad : verify p2 u.passwordHash ≠ some true) :
    handleSessionPost verify users e1 p1 =
      .error (401, "invalid username or password") ∧
    handleSessionPost verify users e2 p2 =
      .error (401, "invalid username or password") ∧
    handleSessionPost verify users e1 p1 = handleSessionPost verify users e2 p2 := by
  have h1 : handleSessionPost verify users e1 p1 =
      .error (401, "invalid username or password") := by
    simp only [handleSessionPost, hmiss]
    rw [if_neg (by push_neg; exact ⟨he1, hp1⟩)]
  have h2 : handleSessionPost verify users e2 p2 =
      .error (401, "invalid username or password") := by
    simp only [handleSessionPost, hhit]
    rw [if_neg (by push_neg; exact ⟨he2, hp2⟩)]
  exact ⟨h1, h2, h1.trans h2.symm⟩

theorem login_indistinguishable_witness :
    handleSessionPost (fun _ _ => some false) [sampleUser] "nobody@example.com" "pw" =
      .error (401, "invalid username or password") ∧
    handleSessionPost (fun _ _ => some false) [sampleUser] "jane@example.com" "wrong" =
      .error (401, "invalid username or password") ∧
    handleSessionPost (fun _ _ => some false) [sampleUser] "nobody@example.com" "pw" =
      handleSessionPost (fun _ _ => some false) [sampleUser] "jane@example.com" "wrong" :=
  login_indistinguishable (fun _ _ => some false) [sampleUser]
    "nobody@example.com" "pw" "jane@example.com" "wrong" sampleUser
    (by decide) (by decide) (by decide) (by decide) rfl rfl (by decide)

/-- Deleting a code removes every row carrying it, so a second delete of the
same code removes nothing. -/
lemma rowsDeleted_deleteInviteCode (code : Nat) (l : List InviteCodeRow) :
    rowsDeleted code (deleteInviteCode code l) = 0 := by
  induction l with
  | nil => rfl
  | cons c cs ih =>
    by_cases h : c.code = code
    · simp only [deleteInviteCode, rowsDeleted, List.filter_cons, h] at ih ⊢
      simp [ih]
    · simp only [deleteInviteCode, rowsDeleted, List.filter_cons, h] at ih ⊢
      simp [h, ih]

/-- A committed signup leaves exactly the invite-code table with the used code
deleted (and the new user appended). -/
lemma handleSignupTx_ok_codes (first last email passwordHash : String)
    (code newId : Nat) (db db1 : SignupDb)
    (h : handleSignupTx first last email passwordHash code newId db = .ok db1) :
    db1.inviteCodes = deleteInviteCode code db.inviteCodes := by
  unfold handleSignupTx at h
  split at h
  · exact absurd h (by simp)
  · split at h
    · exact absurd h (by simp)
    · injection h with h3
      rw [← h3]

/-- Claim C2: the signup's invite-code delete and user insert form one
transaction: a delete affecting zero rows aborts the whole transaction with
HTTP 400 ("bad invite code"), any failure leaves both tables untouched (no
user created, no code consumed), and once a signup has committed, any repeat
signup with the same invite code fails with the same 400. -/
theorem signup_invite_code_single_use
    (f1 l1 e1 h1 f2 l2 e2 h2 : String) (code n1 n2 : Nat) (db : SignupDb) :
    (rowsDeleted code db.inviteCodes = 0 →
      handleSignupTx f1 l1 e1 h1 code n1 db = .error (400, "bad invite code")) ∧
    (∀ err, handleSignupTx f1 l1 e1 h1 code n1 db = .error err →
      signupFinalState f1 l1 e1 h1 code n1 db = db) ∧
    (∀ db1, handleSignupTx f1 l1 e1 h1 code n1 db = .ok db1 →
      handleSignupTx f2 l2 e2 h2 code n2 db1 = .error (400, "bad invite code")) := by
  refine ⟨?_, ?_, ?_⟩
  · intro h0
    unfold handleSignupTx
    rw [if_pos (by rw [h0]; decide)]
  · intro err herr
    simp [signupFinalState, herr]
  · intro db1 hok
    have hcodes := handleSignupTx_ok_codes f1 l1 e1 h1 code n1 db db1 hok
    unfold handleSignupTx
    rw [if_pos (by rw [hcodes, rowsDeleted_deleteInviteCode]; decide)]

/-- The signup databases used by the signup witnesses: one fresh (but already
expired, for C9) invite code and no users, before and after Jane's signup. -/
def signupDb0 : SignupDb :=
  { inviteCodes := [{ code := 42, userId := none, creationTime := 0, expiryTime := -5 }],
    users := [] }

def signupDb1 : SignupDb :=
  { inviteCodes := [],
    users := [{ id := 1, firstName := "Jane", lastName := "Doe",
                email := "jane@example.com", passwordHash := "h" }] }

theorem signup_invite_code_single_use_witness :
    handleSignupTx "Jane" "Doe" "jane@example.com" "h" 42 2 signupDb1 =
      .error (400, "bad invite code") :=
  (signup_invite_code_single_use "Jane" "Doe" "jane@example.com" "h"
      "Jane" "Doe" "jane@example.com" "h" 42 1 2 signupDb0).2.2 signupDb1 rfl

/-- Claim C9: signup never consults the invite code's `expiry_time` — the
delete matches on the code value alone, so a still-present code whose expiry
is in the past is accepted all the same. -/
theorem signup_ignores_expiry (first last email passwordHash : String)
    (code newId : Nat) (db : SignupDb) (now : Int)
    (hcode : rowsDeleted code db.inviteCodes = 1)
    (hemail : emailTaken email db.users = false)
    (hexp : ∀ c ∈ db.inviteCodes, c.code = code → c.expiryTime < now) :
    handleSignupTx first last email passwordHash code newId db =
      .ok { inviteCodes := deleteInviteCode code db.inviteCodes,
            users := db.users ++ [⟨newId, first, last, email, passwordHash⟩] } := by
  unfold handleSignupTx
  rw [if_neg (by rw [hcode]; decide), if_neg (by rw [hemail]; decide)]

theorem signup_ignores_expiry_witness :
    handleSignupTx "Jane" "Doe" "jane@example.com" "h" 42 1 signupDb0 =
      .ok { inviteCodes := deleteInviteCode 42 signupDb0.inviteCodes,
            users := signupDb0.users ++
              [⟨1, "Jane", "Doe", "jane@example.com", "h"⟩] } :=
  signup_ignores_expiry "Jane" "Doe" "jane@example.com" "h" 42 1 signupDb0 0
    rfl rfl (by decide)
